import Mathlib

/-!
Verification of the Scope Update Authorization Engine of the
provenance metadata module.

The keeper functions under verification (`ValidateScopeUpdate`,
`ValidateScopeAddDataAccess`, `ValidateScopeDeleteDataAccess`,
`ValidateScopeUpdateOwners`, and the value-owner transfer rule) are
exercised by `x/metadata/keeper/scope_test.go`; the keeper source itself
is not part of the provided tree, so each definition below is modelled
from the specification (sections 4.1 to 4.4), with the exact error
strings taken from the assertions in `scope_test.go`.

Addresses are modelled as plain strings (the bech32 codec is the
external collaborator `decodeFailure`); the specification store and the
marker permission oracle are the other two collaborator fields of `Env`.
-/

namespace Provenance

/-- Modelled from the spec: the fixed role enumeration of a `Party`
(`PARTY_TYPE_*` in the proto definitions; `UNSPECIFIED` is never valid
on a stored party). -/
inductive PartyType where
  | unspecified
  | originator
  | servicer
  | investor
  | custodian
  | owner
  | affiliate
  | omnibus
  | provenance
deriving DecidableEq, Repr

/-- The full proto-style name of a role, as used in missing-signature
messages such as "missing signature from [addr (PARTY_TYPE_OWNER)]". -/
def PartyType.protoName : PartyType → String
  | .unspecified => "PARTY_TYPE_UNSPECIFIED"
  | .originator => "PARTY_TYPE_ORIGINATOR"
  | .servicer => "PARTY_TYPE_SERVICER"
  | .investor => "PARTY_TYPE_INVESTOR"
  | .custodian => "PARTY_TYPE_CUSTODIAN"
  | .owner => "PARTY_TYPE_OWNER"
  | .affiliate => "PARTY_TYPE_AFFILIATE"
  | .omnibus => "PARTY_TYPE_OMNIBUS"
  | .provenance => "PARTY_TYPE_PROVENANCE"

/-- The short role name, as used in the missing-required-roles message
"missing party type required by spec: [OWNER]". -/
def PartyType.roleName : PartyType → String
  | .unspecified => "UNSPECIFIED"
  | .originator => "ORIGINATOR"
  | .servicer => "SERVICER"
  | .investor => "INVESTOR"
  | .custodian => "CUSTODIAN"
  | .owner => "OWNER"
  | .affiliate => "AFFILIATE"
  | .omnibus => "OMNIBUS"
  | .provenance => "PROVENANCE"

/-- Modelled from the spec: a `Party` is an `(address, role)` pair. -/
structure Party where
  address : String
  role : PartyType
deriving DecidableEq, Repr

/-- Modelled from the spec: a `Scope` record.  `specificationId` and
`valueOwner` are optional addresses, with the empty string standing for
nil/unset. -/
structure Scope where
  scopeId : String
  specificationId : String
  owners : List Party
  dataAccess : List String
  valueOwner : String
deriving DecidableEq, Repr

/-- A scope slot is empty (creation path) when it carries no identifier,
matching the `types.Scope{}` value the tests pass for "nil existing". -/
def Scope.isEmpty (s : Scope) : Bool := s.scopeId = ""

/-- The two marker permissions this engine consumes. -/
inductive MarkerAccess where
  | deposit
  | withdraw
deriving DecidableEq, Repr

/-- The read-only collaborators of the engine: the specification store
(returning the required party roles of a known specification id), the
marker-address predicate, the permission oracle (grantee, marker,
permission), and the address codec (`none` means the address decodes,
`some cause` is the decode failure message). -/
structure Env where
  specRequiredRoles : String → Option (List PartyType)
  isMarker : String → Bool
  hasAccess : String → String → MarkerAccess → Bool
  decodeFailure : String → Option String

/-- The error taxonomy of the engine, one constructor per rejection
condition, each carrying the data its user-facing message needs. -/
inductive AuthError where
  | missingAddress
  | missingSpecAddress
  | specificationNotFound (specId : String)
  | identifierMismatch (expected got : String)
  | missingOwnerSignature (address : String)
  | noWithdrawAuthority (marker : String)
  | noDepositAuthority (marker : String)
  | emptyDataAccessList
  | addressDecodeError (address cause : String)
  | duplicateDataAccess (address : String)
  | addressNotInDataAccess (address : String)
  | missingPartySignatures (parties : List Party)
  | invalidPartyAddress (address cause : String)
  | invalidPartyType (address : String)
  | noOwnersSpecified
  | missingRequiredRoles (roles : List PartyType)
deriving DecidableEq, Repr

/-- The bracketed `[address (PARTY_TYPE_X)]` rendering of a party in
missing-signature messages. -/
def partyTag (p : Party) : String :=
  "[" ++ p.address ++ " (" ++ p.role.protoName ++ ")]"

/-- The user-facing message of each error, with wording taken from the
assertions in `scope_test.go`. -/
def AuthError.message : AuthError → String
  | .missingAddress => "address is empty"
  | .missingSpecAddress => "invalid specification id: address is empty"
  | .specificationNotFound sId => "scope specification " ++ sId ++ " not found"
  | .identifierMismatch e g =>
      "cannot update scope identifier. expected " ++ e ++ ", got " ++ g
  | .missingOwnerSignature a =>
      "missing signature from existing owner " ++ a ++ "; required for update"
  | .noWithdrawAuthority m =>
      "missing signature for " ++ m ++
        " with authority to withdraw/remove existing value owner"
  | .noDepositAuthority m =>
      "no signatures present with authority to add scope to marker " ++ m
  | .emptyDataAccessList => "data access list cannot be empty"
  | .addressDecodeError a c =>
      "failed to decode data access address " ++ a ++ " : " ++ c
  | .duplicateDataAccess a => "address already exists for data access " ++ a
  | .addressNotInDataAccess a =>
      "address does not exist in scope data access: " ++ a
  | .missingPartySignatures ps =>
      "missing signature from " ++ String.intercalate ", " (ps.map partyTag)
  | .invalidPartyAddress a c =>
      "invalid scope owners: invalid party address [" ++ a ++ "]: " ++ c
  | .invalidPartyType a =>
      "invalid scope owners: invalid party type for party " ++ a
  | .noOwnersSpecified => "invalid scope owners: at least one party is required"
  | .missingRequiredRoles rs =>
      "missing party type required by spec: [" ++
        String.intercalate ", " (rs.map PartyType.roleName) ++ "]"

/-- Modelled from the spec (4.1.b): structural validation of a proposed
scope — non-empty `id`, non-empty `specificationId`, and the
specification must resolve via the specification collaborator. -/
def validateBasic (env : Env) (s : Scope) : Except AuthError Unit :=
  if s.scopeId = "" then .error .missingAddress
  else if s.specificationId = "" then .error .missingSpecAddress
  else if (env.specRequiredRoles s.specificationId).isSome then .ok ()
  else .error (.specificationNotFound s.specificationId)

/-- The first party of `owners` whose address is not in `signers`. -/
def firstUnsignedOwner (owners : List Party) (signers : List String) :
    Option Party :=
  owners.find? (fun p => !(signers.contains p.address))

/-- Modelled from the spec (4.1.d): every address present in the
existing owner list must be present in the signer set; the first missing
one fails with the missing-owner-signature error. -/
def checkOwnersSigned (owners : List Party) (signers : List String) :
    Except AuthError Unit :=
  match firstUnsignedOwner owners signers with
  | some p => .error (.missingOwnerSignature p.address)
  | none => .ok ()

/-- Modelled from the spec (4.4, removal leg): a marker existing value
owner needs a signer holding `withdraw` on it; a plain existing value
owner must itself have signed. -/
def removalLeg (env : Env) (existingOwner : String) (signers : List String) :
    Except AuthError Unit :=
  if existingOwner = "" then .ok ()
  else if env.isMarker existingOwner then
    if signers.any (fun s => env.hasAccess s existingOwner .withdraw) then .ok ()
    else .error (.noWithdrawAuthority existingOwner)
  else if signers.contains existingOwner then .ok ()
  else .error (.missingOwnerSignature existingOwner)

/-- Modelled from the spec (4.4, assignment leg): a marker proposed
value owner needs a signer holding `deposit` on it; a plain proposed
value owner needs no check of its own. -/
def assignmentLeg (env : Env) (proposedOwner : String) (signers : List String) :
    Except AuthError Unit :=
  if proposedOwner = "" then .ok ()
  else if env.isMarker proposedOwner then
    if signers.any (fun s => env.hasAccess s proposedOwner .deposit) then .ok ()
    else .error (.noDepositAuthority proposedOwner)
  else .ok ()

/-- Modelled from the spec (4.4): the value-owner transfer validator —
no check when unchanged, otherwise the removal leg is evaluated first
and the assignment leg second. -/
def ValidateValueOwnerTransfer (env : Env) (existingOwner proposedOwner : String)
    (signers : List String) : Except AuthError Unit :=
  if existingOwner = proposedOwner then .ok ()
  else
    match removalLeg env existingOwner signers with
    | .error e => .error e
    | .ok _ => assignmentLeg env proposedOwner signers

/-- Modelled from the spec (4.1): the top-level scope update validator.
Creation path runs only structural validation; the update path checks
identifier, structure, the no-op short-circuit, owner consent, and the
value-owner transfer, in that order, returning the first failure. -/
def ValidateScopeUpdate (env : Env) (existing proposed : Scope)
    (signers : List String) : Except AuthError Unit :=
  if existing.isEmpty then validateBasic env proposed
  else if existing.scopeId ≠ proposed.scopeId then
    .error (.identifierMismatch existing.scopeId proposed.scopeId)
  else
    match validateBasic env proposed with
    | .error e => .error e
    | .ok _ =>
      if proposed = existing then .ok ()
      else
        match checkOwnersSigned existing.owners signers with
        | .error e => .error e
        | .ok _ =>
          ValidateValueOwnerTransfer env existing.valueOwner proposed.valueOwner
            signers

/-- The per-address check of the add-data-access validator: the address
must decode and must not already be in the existing data-access list. -/
def addAddrErr (env : Env) (existingDataAccess : List String) (addr : String) :
    Option AuthError :=
  match env.decodeFailure addr with
  | some cause => some (.addressDecodeError addr cause)
  | none =>
    if existingDataAccess.contains addr then some (.duplicateDataAccess addr)
    else none

/-- The per-address check of the delete-data-access validator: the
address must decode and must currently be in the data-access list. -/
def deleteAddrErr (env : Env) (existingDataAccess : List String) (addr : String) :
    Option AuthError :=
  match env.decodeFailure addr with
  | some cause => some (.addressDecodeError addr cause)
  | none =>
    if existingDataAccess.contains addr then none
    else some (.addressNotInDataAccess addr)

/-- The existing owner parties whose addresses did not sign. -/
def missingOwnerParties (owners : List Party) (signers : List String) :
    List Party :=
  owners.filter (fun p => !(signers.contains p.address))

/-- Modelled from the spec (4.2, signer pass): every party in the
existing owner list must be in the signer set; the missing ones are
reported together. -/
def checkAllOwnersSigned (owners : List Party) (signers : List String) :
    Except AuthError Unit :=
  if missingOwnerParties owners signers = [] then .ok ()
  else .error (.missingPartySignatures (missingOwnerParties owners signers))

/-- Modelled from the spec (4.2): the add-data-access validator —
empty-list check first, then the per-address checks in order (first
failing address wins), then the owner-signer check. -/
def ValidateScopeAddDataAccess (env : Env) (dataAccessAddrs : List String)
    (existing : Scope) (signers : List String) : Except AuthError Unit :=
  if dataAccessAddrs = [] then .error .emptyDataAccessList
  else
    match dataAccessAddrs.findSome? (addAddrErr env existing.dataAccess) with
    | some e => .error e
    | none => checkAllOwnersSigned existing.owners signers

/-- Modelled from the spec (4.2): the delete-data-access validator, the
symmetric counterpart with a membership instead of a duplicate check. -/
def ValidateScopeDeleteDataAccess (env : Env) (dataAccessAddrs : List String)
    (existing : Scope) (signers : List String) : Except AuthError Unit :=
  if dataAccessAddrs = [] then .error .emptyDataAccessList
  else
    match dataAccessAddrs.findSome? (deleteAddrErr env existing.dataAccess) with
    | some e => .error e
    | none => checkAllOwnersSigned existing.owners signers

/-- First decode failure among the proposed parties. -/
def firstDecodeErr (env : Env) (parties : List Party) : Option AuthError :=
  parties.findSome?
    (fun p => (env.decodeFailure p.address).map
      (fun cause => AuthError.invalidPartyAddress p.address cause))

/-- First proposed party whose role is `UNSPECIFIED`. -/
def firstRoleErr (parties : List Party) : Option AuthError :=
  parties.findSome?
    (fun p =>
      if p.role = PartyType.unspecified then
        some (AuthError.invalidPartyType p.address)
      else none)

/-- The roles present across a party list. -/
def rolesOf (parties : List Party) : List PartyType := parties.map Party.role

/-- The required roles not covered by the proposed party list, first
occurrences kept. -/
def missingRoles (required : List PartyType) (parties : List Party) :
    List PartyType :=
  (required.filter (fun r => !((rolesOf parties).contains r))).dedup

/-- The ordering on roles used when reporting missing required roles:
alphabetical on the short role name. -/
def roleLe (a b : PartyType) : Prop := a.roleName ≤ b.roleName

instance : DecidableRel roleLe := fun a b =>
  inferInstanceAs (Decidable (a.roleName ≤ b.roleName))

instance : IsTotal PartyType roleLe :=
  ⟨fun a b => le_total a.roleName b.roleName⟩

instance : IsTrans PartyType roleLe :=
  ⟨fun _ _ _ h1 h2 => le_trans h1 h2⟩

/-- Sort roles by short role name, for error reporting. -/
def sortRoles (l : List PartyType) : List PartyType := l.insertionSort roleLe

/-- The first existing party whose `(address, role)` pair does not
appear unchanged in the proposed list and whose address did not sign. -/
def firstChangedUnsigned (existing proposed : List Party)
    (signers : List String) : Option Party :=
  (existing.filter (fun p => !(proposed.contains p))).find?
    (fun p => !(signers.contains p.address))

/-- Modelled from the spec (4.3): the owner-set validator — decode every
proposed address, reject `UNSPECIFIED` roles, require a non-empty list,
require role coverage of the specification's required roles, and require
a signature from every existing party whose pair was removed or whose
role changed. -/
def ValidateOwnerUpdate (env : Env) (existing proposed : List Party)
    (signers : List String) (requiredRoles : List PartyType) :
    Except AuthError Unit :=
  match firstDecodeErr env proposed with
  | some e => .error e
  | none =>
    match firstRoleErr proposed with
    | some e => .error e
    | none =>
      if proposed = [] then .error .noOwnersSpecified
      else if missingRoles requiredRoles proposed ≠ [] then
        .error (.missingRequiredRoles (sortRoles (missingRoles requiredRoles proposed)))
      else
        match firstChangedUnsigned existing proposed signers with
        | some p => .error (.missingPartySignatures [p])
        | none => .ok ()

/-- Modelled from the spec (4.3 and 6): the keeper entry point resolves
the required roles from the proposed scope's specification and runs the
owner-set validator on the two owner lists. -/
def ValidateScopeUpdateOwners (env : Env) (existing proposed : Scope)
    (signers : List String) : Except AuthError Unit :=
  match env.specRequiredRoles proposed.specificationId with
  | none => .error (.specificationNotFound proposed.specificationId)
  | some required =>
    ValidateOwnerUpdate env existing.owners proposed.owners signers required

/-! ### Sample collaborators and records used by the witnesses -/

/-- A collaborator environment with no specifications, no markers and a
codec accepting every address. -/
def envNone : Env where
  specRequiredRoles := fun _ => none
  isMarker := fun _ => false
  hasAccess := fun _ _ _ => false
  decodeFailure := fun _ => none

/-- A collaborator environment with one specification "spec1" requiring
the OWNER role, one marker "marker1" on which "alice" holds deposit and
withdraw, and a codec rejecting exactly "badaddr". -/
def envOne : Env where
  specRequiredRoles := fun s =>
    if s = "spec1" then some [PartyType.owner] else none
  isMarker := fun a => a == "marker1"
  hasAccess := fun g m _ => g == "alice" && m == "marker1"
  decodeFailure := fun a =>
    if a = "badaddr" then some "decoding bech32 failed: invalid index of 1"
    else none

/-- Party "alice" with the OWNER role. -/
def aliceOwner : Party := { address := "alice", role := PartyType.owner }

/-- Party "bob" with the OWNER role. -/
def bobOwner : Party := { address := "bob", role := PartyType.owner }

/-- A structurally valid scope owned by alice, no data access, no value
owner. -/
def scopeA : Scope :=
  { scopeId := "scope1", specificationId := "spec1",
    owners := [aliceOwner], dataAccess := [], valueOwner := "" }

/-- `scopeA` with value owner "carol". -/
def scopeACarol : Scope := { scopeA with valueOwner := "carol" }

/-- `scopeA` with value owner "dave". -/
def scopeADave : Scope := { scopeA with valueOwner := "dave" }

/-- The all-empty scope record (`types.Scope{}` in the tests). -/
def scopeZero : Scope :=
  { scopeId := "", specificationId := "", owners := [], dataAccess := [],
    valueOwner := "" }

/-- `scopeA` with its owner list replaced by bob. -/
def scopeBobOwner : Scope := { scopeA with owners := [bobOwner] }

/-- `scopeA` with alice demoted to the CUSTODIAN role, leaving the
required OWNER role uncovered. -/
def scopeCustodian : Scope :=
  { scopeA with owners := [{ address := "alice", role := PartyType.custodian }] }

/-- `scopeA` with an empty owner list. -/
def scopeNoOwners : Scope := { scopeA with owners := [] }

/-- `scopeA` with "carol" on the data-access list. -/
def scopeDataCarol : Scope := { scopeA with dataAccess := ["carol"] }

/-! ### General lemmas about the validators -/

/-- Structural validation succeeding implies the scope id is set. -/
theorem validateBasic_ok_scopeId {env : Env} {s : Scope}
    (h : validateBasic env s = .ok ()) : s.scopeId ≠ "" := by
  intro hid
  simp [validateBasic, hid] at h

/-- No unsigned owner is found exactly when every owner address
signed. -/
theorem firstUnsignedOwner_eq_none_iff (owners : List Party)
    (signers : List String) :
    firstUnsignedOwner owners signers = none ↔
      ∀ p ∈ owners, p.address ∈ signers := by
  simp [firstUnsignedOwner, List.find?_eq_none]

/-- The owner-consent check succeeds exactly when every owner address
signed. -/
theorem checkOwnersSigned_ok_iff (owners : List Party)
    (signers : List String) :
    checkOwnersSigned owners signers = .ok () ↔
      ∀ p ∈ owners, p.address ∈ signers := by
  rw [← firstUnsignedOwner_eq_none_iff]
  unfold checkOwnersSigned
  cases h : firstUnsignedOwner owners signers <;> simp [h]

/-- On the update path with matching ids, passing structure and a real
change, the top-level validator reduces to owner consent followed by the
value-owner transfer. -/
theorem validateScopeUpdate_update_path {env : Env} {existing proposed : Scope}
    {signers : List String}
    (hne : existing.isEmpty = false)
    (hid : existing.scopeId = proposed.scopeId)
    (hbasic : validateBasic env proposed = .ok ())
    (hdiff : proposed ≠ existing) :
    ValidateScopeUpdate env existing proposed signers =
      match checkOwnersSigned existing.owners signers with
      | .error e => .error e
      | .ok _ =>
        ValidateValueOwnerTransfer env existing.valueOwner proposed.valueOwner
          signers := by
  unfold ValidateScopeUpdate
  rw [hne]
  simp only [Bool.false_eq_true, if_false]
  rw [if_neg (by simp [hid]), hbasic, if_neg hdiff]

/-- The removal leg is monotone in the signer set. -/
theorem removalLeg_mono {env : Env} {vo : String} {s1 s2 : List String}
    (hsub : ∀ a ∈ s1, a ∈ s2)
    (h : removalLeg env vo s1 = .ok ()) : removalLeg env vo s2 = .ok () := by
  unfold removalLeg at h ⊢
  by_cases h0 : vo = ""
  · rw [if_pos h0]
  · rw [if_neg h0] at h ⊢
    by_cases hm : env.isMarker vo = true
    · rw [if_pos hm] at h ⊢
      by_cases ha : s1.any (fun s => env.hasAccess s vo .withdraw) = true
      · rw [List.any_eq_true] at ha
        obtain ⟨s, hs, hacc⟩ := ha
        rw [if_pos (List.any_eq_true.mpr ⟨s, hsub s hs, hacc⟩)]
      · rw [if_neg ha] at h
        exact absurd h (by simp)
    · rw [if_neg hm] at h ⊢
      by_cases hc : s1.contains vo = true
      · rw [if_pos (by simpa using hsub vo (by simpa using hc))]
      · rw [if_neg hc] at h
        exact absurd h (by simp)

/-- The assignment leg is monotone in the signer set. -/
theorem assignmentLeg_mono {env : Env} {po : String} {s1 s2 : List String}
    (hsub : ∀ a ∈ s1, a ∈ s2)
    (h : assignmentLeg env po s1 = .ok ()) : assignmentLeg env po s2 = .ok () := by
  unfold assignmentLeg at h ⊢
  by_cases h0 : po = ""
  · rw [if_pos h0]
  · rw [if_neg h0] at h ⊢
    by_cases hm : env.isMarker po = true
    · rw [if_pos hm] at h ⊢
      by_cases ha : s1.any (fun s => env.hasAccess s po .deposit) = true
      · rw [List.any_eq_true] at ha
        obtain ⟨s, hs, hacc⟩ := ha
        rw [if_pos (List.any_eq_true.mpr ⟨s, hsub s hs, hacc⟩)]
      · rw [if_neg ha] at h
        exact absurd h (by simp)
    · rw [if_neg hm] at h ⊢

/-- The value-owner transfer validator is monotone in the signer set. -/
theorem validateValueOwnerTransfer_mono {env : Env} {vo po : String}
    {s1 s2 : List String} (hsub : ∀ a ∈ s1, a ∈ s2)
    (h : ValidateValueOwnerTransfer env vo po s1 = .ok ()) :
    ValidateValueOwnerTransfer env vo po s2 = .ok () := by
  unfold ValidateValueOwnerTransfer at h ⊢
  by_cases heq : vo = po
  · rw [if_pos heq]
  · rw [if_neg heq] at h ⊢
    cases hr : removalLeg env vo s1 with
    | error e => rw [hr] at h; exact absurd h (by simp)
    | ok u =>
      rw [hr] at h
      rw [removalLeg_mono hsub (by cases u; exact hr)]
      exact assignmentLeg_mono hsub h

/-- No changed-and-unsigned existing party is found exactly when every
existing party either appears unchanged in the proposed list or has
signed. -/
theorem firstChangedUnsigned_eq_none_iff (existing proposed : List Party)
    (signers : List String) :
    firstChangedUnsigned existing proposed signers = none ↔
      ∀ p ∈ existing, p ∈ proposed ∨ p.address ∈ signers := by
  simp only [firstChangedUnsigned, List.find?_eq_none, List.mem_filter]
  constructor
  · intro h p hp
    by_cases hmem : p ∈ proposed
    · exact Or.inl hmem
    · refine Or.inr ?_
      have := h p ⟨hp, by simpa using hmem⟩
      simpa using this
  · intro h p hp
    rcases h p hp.1 with hl | hr
    · exact absurd hp.2 (by simpa using hl)
    · simpa using hr

/-- The missing-roles list is non-empty exactly when some required role
is not covered by the proposed parties. -/
theorem missingRoles_ne_nil_iff (required : List PartyType)
    (parties : List Party) :
    missingRoles required parties ≠ [] ↔
      ∃ r ∈ required, r ∉ rolesOf parties := by
  rw [missingRoles, Ne, List.dedup_eq_nil, List.filter_eq_nil_iff]
  push_neg
  simp

/-! ### The claims -/

/-- Claim C1, counterexample: the claim quantifies over every scope, but
re-submitting the all-empty scope unchanged fails structural validation
with the empty-address error instead of succeeding (the behavior the
first test case of `TestValidateScopeUpdate` asserts). -/
theorem claim1_counterexample :
    ValidateScopeUpdate envNone scopeZero scopeZero ["alice"] =
      .error .missingAddress := rfl

/-- Claim C1 (amended): for every scope S that passes structural
validation (non-empty id, non-empty specification id resolving via the
specification store) and every signer set, including the empty set,
ValidateScopeUpdate(S, S, signers) succeeds: the proposed scope being
deeply equal to the existing scope short-circuits all signer checks. -/
theorem claim1_noop_succeeds_for_valid_scope (env : Env) (S : Scope)
    (signers : List String) (hbasic : validateBasic env S = .ok ()) :
    ValidateScopeUpdate env S S signers = .ok () := by
  have hid : S.isEmpty = false := by
    simp [Scope.isEmpty, validateBasic_ok_scopeId hbasic]
  unfold ValidateScopeUpdate
  rw [hid]
  simp [hbasic]

/-- Witness for claim C1: the structurally valid sample scope is
accepted unchanged with no signers at all. -/
theorem claim1_witness :
    validateBasic envOne scopeA = .ok () ∧
      ValidateScopeUpdate envOne scopeA scopeA [] = .ok () :=
  ⟨rfl, claim1_noop_succeeds_for_valid_scope envOne scopeA [] rfl⟩

/-- Claim C3: in the removal leg of the value-owner transfer (existing
value owner non-empty and changing), a marker existing owner requires
some signer with withdraw permission, failing otherwise with the
no-withdraw-authority error for that marker, while a plain existing
owner must itself be among the signers, failing otherwise with the
missing-owner-signature error for that address. -/
theorem claim3_removal_leg (env : Env) (vo po : String)
    (signers : List String) (hne : vo ≠ "") (hch : vo ≠ po) :
    (env.isMarker vo = true →
      (signers.any (fun s => env.hasAccess s vo .withdraw) = false →
        ValidateValueOwnerTransfer env vo po signers =
          .error (.noWithdrawAuthority vo)) ∧
      (ValidateValueOwnerTransfer env vo po signers = .ok () →
        ∃ s ∈ signers, env.hasAccess s vo .withdraw = true)) ∧
    (env.isMarker vo = false →
      (signers.contains vo = false →
        ValidateValueOwnerTransfer env vo po signers =
          .error (.missingOwnerSignature vo)) ∧
      (ValidateValueOwnerTransfer env vo po signers = .ok () →
        vo ∈ signers)) := by
  unfold ValidateValueOwnerTransfer removalLeg
  rw [if_neg hch, if_neg hne]
  constructor
  · intro hm
    rw [if_pos hm]
    constructor
    · intro hnone
      rw [hnone]
      simp
    · intro hok
      by_cases ha : signers.any (fun s => env.hasAccess s vo .withdraw) = true
      · exact List.any_eq_true.mp ha
      · rw [if_neg ha] at hok
        exact absurd hok (by simp)
  · intro hm
    rw [if_neg (by simp [hm])]
    constructor
    · intro hnone
      rw [if_neg (by rw [hnone]; exact Bool.false_ne_true)]
    · intro hok
      by_cases hc : signers.contains vo = true
      · simpa using hc
      · rw [if_neg hc] at hok
        exact absurd hok (by simp)

/-- Witness for claim C3: removing marker "marker1" as value owner with
only "bob" signing (no withdraw authority) fails with the
no-withdraw-authority error; removing plain value owner "carol" without
carol signing fails with the missing-owner-signature error. -/
theorem claim3_witness :
    ("marker1" : String) ≠ "" ∧ ("marker1" : String) ≠ "bob" ∧
      (envOne.isMarker "marker1" = true →
        (["bob"].any (fun s => envOne.hasAccess s "marker1" .withdraw) = false →
          ValidateValueOwnerTransfer envOne "marker1" "bob" ["bob"] =
            .error (.noWithdrawAuthority "marker1")) ∧
        (ValidateValueOwnerTransfer envOne "marker1" "bob" ["bob"] = .ok () →
          ∃ s ∈ ["bob"], envOne.hasAccess s "marker1" .withdraw = true)) ∧
      ("carol" : String) ≠ "" ∧ ("carol" : String) ≠ "dave" ∧
      (envOne.isMarker "carol" = false →
        (["alice"].contains "carol" = false →
          ValidateValueOwnerTransfer envOne "carol" "dave" ["alice"] =
            .error (.missingOwnerSignature "carol")) ∧
        (ValidateValueOwnerTransfer envOne "carol" "dave" ["alice"] = .ok () →
          "carol" ∈ ["alice"])) :=
  ⟨by decide, by decide,
    (claim3_removal_leg envOne "marker1" "bob" ["bob"] (by decide) (by decide)).1,
    by decide, by decide,
    (claim3_removal_leg envOne "carol" "dave" ["alice"] (by decide) (by decide)).2⟩

/-- Claim C4: in the assignment leg of the value-owner transfer
(proposed value owner non-empty and changing, removal leg passing), a
marker proposed owner requires some signer with deposit permission,
failing otherwise with the no-deposit-authority error for that marker,
while a plain proposed owner triggers no additional check: the call
succeeds without the new owner's signature. -/
theorem claim4_assignment_leg (env : Env) (vo po : String)
    (signers : List String) (hne : po ≠ "") (hch : vo ≠ po)
    (hrem : removalLeg env vo signers = .ok ()) :
    (env.isMarker po = true →
      (signers.any (fun s => env.hasAccess s po .deposit) = false →
        ValidateValueOwnerTransfer env vo po signers =
          .error (.noDepositAuthority po)) ∧
      (ValidateValueOwnerTransfer env vo po signers = .ok () →
        ∃ s ∈ signers, env.hasAccess s po .deposit = true)) ∧
    (env.isMarker po = false →
      ValidateValueOwnerTransfer env vo po signers = .ok ()) := by
  unfold ValidateValueOwnerTransfer
  rw [if_neg hch, hrem]
  unfold assignmentLeg
  rw [if_neg hne]
  constructor
  · intro hm
    rw [if_pos hm]
    constructor
    · intro hnone
      rw [if_neg (by simp [hnone])]
    · intro hok
      by_cases ha : signers.any (fun s => env.hasAccess s po .deposit) = true
      · exact List.any_eq_true.mp ha
      · rw [if_neg ha] at hok
        exact absurd hok (by simp)
  · intro hm
    rw [if_neg (by simp [hm])]

/-- Witness for claim C4: assigning marker "marker1" as value owner with
only "bob" signing (no deposit authority) fails with the
no-deposit-authority error, and assigning plain "dave" succeeds although
"dave" never signed. -/
theorem claim4_witness :
    ("marker1" : String) ≠ "" ∧ ("" : String) ≠ "marker1" ∧
      removalLeg envOne "" ["bob"] = .ok () ∧
      (envOne.isMarker "marker1" = true →
        (["bob"].any (fun s => envOne.hasAccess s "marker1" .deposit) = false →
          ValidateValueOwnerTransfer envOne "" "marker1" ["bob"] =
            .error (.noDepositAuthority "marker1")) ∧
        (ValidateValueOwnerTransfer envOne "" "marker1" ["bob"] = .ok () →
          ∃ s ∈ ["bob"], envOne.hasAccess s "marker1" .deposit = true)) ∧
      ("dave" : String) ≠ "" ∧ ("carol" : String) ≠ "dave" ∧
      removalLeg envOne "carol" ["carol"] = .ok () ∧
      (envOne.isMarker "dave" = false →
        ValidateValueOwnerTransfer envOne "carol" "dave" ["carol"] = .ok ()) :=
  ⟨by decide, by decide, rfl,
    (claim4_assignment_leg envOne "" "marker1" ["bob"] (by decide) (by decide)
      rfl).1,
    by decide, by decide, rfl,
    (claim4_assignment_leg envOne "carol" "dave" ["carol"] (by decide)
      (by decide) rfl).2⟩

/-- Claim C7: on the update path the identifier check comes first — a
proposed scope with a different id always fails with the
identifier-mismatch error naming expected and got — and structural
validation comes second: with matching ids, an empty specification id
fails with the empty-address error and a set but unresolvable
specification id fails with the specification-not-found error, in every
case for every signer set, so before any signer check is reported. -/
theorem claim7_check_order (env : Env) (existing proposed : Scope)
    (signers : List String) (hne : existing.isEmpty = false) :
    (existing.scopeId ≠ proposed.scopeId →
      ValidateScopeUpdate env existing proposed signers =
        .error (.identifierMismatch existing.scopeId proposed.scopeId)) ∧
    (existing.scopeId = proposed.scopeId →
      proposed.specificationId = "" →
      ValidateScopeUpdate env existing proposed signers =
        .error .missingSpecAddress) ∧
    (existing.scopeId = proposed.scopeId →
      proposed.specificationId ≠ "" →
      env.specRequiredRoles proposed.specificationId = none →
      ValidateScopeUpdate env existing proposed signers =
        .error (.specificationNotFound proposed.specificationId)) := by
  have hsid : existing.scopeId ≠ "" := by
    have h2 := hne
    unfold Scope.isEmpty at h2
    simpa using h2
  refine ⟨?_, ?_, ?_⟩
  · intro hid
    unfold ValidateScopeUpdate
    rw [hne]
    simp only [Bool.false_eq_true, if_false]
    rw [if_pos hid]
  · intro hid hspec
    unfold ValidateScopeUpdate
    rw [hne]
    simp only [Bool.false_eq_true, if_false]
    rw [if_neg (by simp [hid])]
    have : validateBasic env proposed = .error .missingSpecAddress := by
      unfold validateBasic
      rw [if_neg (hid ▸ hsid), if_pos hspec]
    rw [this]
  · intro hid hspec hnone
    unfold ValidateScopeUpdate
    rw [hne]
    simp only [Bool.false_eq_true, if_false]
    rw [if_neg (by simp [hid])]
    have : validateBasic env proposed =
        .error (.specificationNotFound proposed.specificationId) := by
      unfold validateBasic
      rw [if_neg (hid ▸ hsid), if_neg hspec]
      simp [hnone]
    rw [this]

/-- Witness for claim C7: with no signers at all, changing the id of the
sample scope reports the identifier mismatch, blanking its specification
id reports the empty-address error, and pointing it at the unknown
specification "spec2" reports specification-not-found. -/
theorem claim7_witness :
    scopeA.isEmpty = false ∧
      (scopeA.scopeId ≠ "scope2" →
        ValidateScopeUpdate envOne scopeA { scopeA with scopeId := "scope2" } [] =
          .error (.identifierMismatch scopeA.scopeId "scope2")) ∧
      (scopeA.scopeId = ({ scopeA with specificationId := "" } : Scope).scopeId →
        ({ scopeA with specificationId := "" } : Scope).specificationId = "" →
        ValidateScopeUpdate envOne scopeA { scopeA with specificationId := "" } [] =
          .error .missingSpecAddress) ∧
      (scopeA.scopeId = ({ scopeA with specificationId := "spec2" } : Scope).scopeId →
        ({ scopeA with specificationId := "spec2" } : Scope).specificationId ≠ "" →
        envOne.specRequiredRoles "spec2" = none →
        ValidateScopeUpdate envOne scopeA { scopeA with specificationId := "spec2" } [] =
          .error (.specificationNotFound "spec2")) :=
  ⟨rfl,
    (claim7_check_order envOne scopeA { scopeA with scopeId := "scope2" } []
      rfl).1,
    (claim7_check_order envOne scopeA { scopeA with specificationId := "" } []
      rfl).2.1,
    (claim7_check_order envOne scopeA { scopeA with specificationId := "spec2" } []
      rfl).2.2⟩


/-- Claim C2: on a real update (existing non-empty, proposed not deeply
equal), every address in the existing owner list must be among the
signers for the call to succeed, and — once the identifier and
structural checks pass — a first unsigned existing owner makes the call
fail with the missing-owner-signature error naming that owner, whatever
field of the scope changed. -/
theorem claim2_owner_consent (env : Env) (existing proposed : Scope)
    (signers : List String)
    (hne : existing.isEmpty = false) (hdiff : proposed ≠ existing) :
    (ValidateScopeUpdate env existing proposed signers = .ok () →
      ∀ p ∈ existing.owners, p.address ∈ signers) ∧
    (existing.scopeId = proposed.scopeId →
      validateBasic env proposed = .ok () →
      ∀ p, firstUnsignedOwner existing.owners signers = some p →
        ValidateScopeUpdate env existing proposed signers =
          .error (.missingOwnerSignature p.address)) := by
  constructor
  · intro hok
    unfold ValidateScopeUpdate at hok
    rw [hne] at hok
    simp only [Bool.false_eq_true, if_false] at hok
    by_cases hid : existing.scopeId ≠ proposed.scopeId
    · rw [if_pos hid] at hok
      exact absurd hok (by simp)
    · rw [if_neg hid] at hok
      cases hv : validateBasic env proposed with
      | error e => rw [hv] at hok; exact absurd hok (by simp)
      | ok u =>
        cases u
        rw [hv] at hok
        rw [if_neg hdiff] at hok
        cases hc : checkOwnersSigned existing.owners signers with
        | error e => rw [hc] at hok; exact absurd hok (by simp)
        | ok u2 => exact (checkOwnersSigned_ok_iff _ _).mp (by cases u2; exact hc)
  · intro hid hbasic p hfind
    rw [validateScopeUpdate_update_path hne hid hbasic hdiff]
    unfold checkOwnersSigned
    rw [hfind]

/-- Witness for claim C2: updating only the value owner of the sample
scope with a signer set not containing the existing owner alice yields
the missing-owner-signature error for alice. -/
theorem claim2_witness :
    scopeA.isEmpty = false ∧ scopeADave ≠ scopeA ∧
      ((ValidateScopeUpdate envOne scopeA scopeADave ["bob"] = .ok () →
        ∀ p ∈ scopeA.owners, p.address ∈ ["bob"]) ∧
      (scopeA.scopeId = scopeADave.scopeId →
        validateBasic envOne scopeADave = .ok () →
        ∀ p, firstUnsignedOwner scopeA.owners ["bob"] = some p →
          ValidateScopeUpdate envOne scopeA scopeADave ["bob"] =
            .error (.missingOwnerSignature p.address))) :=
  ⟨rfl, by decide,
    claim2_owner_consent envOne scopeA scopeADave ["bob"] rfl (by decide)⟩

/-- Claim C5: once the structural, role and coverage checks of the
owner-set validator pass, the first existing party whose (address, role)
pair does not appear unchanged in the proposed list and whose address
did not sign produces the missing-signature error naming that address
and role, and the validator succeeds exactly when every existing party
either appears unchanged or signed — newly added parties need no
signature of their own. -/
theorem claim5_owner_update_signatures (env : Env) (existing proposed : Scope)
    (signers : List String) (required : List PartyType)
    (hspec : env.specRequiredRoles proposed.specificationId = some required)
    (hdec : firstDecodeErr env proposed.owners = none)
    (hrole : firstRoleErr proposed.owners = none)
    (hnonempty : proposed.owners ≠ [])
    (hcov : missingRoles required proposed.owners = []) :
    (∀ p, firstChangedUnsigned existing.owners proposed.owners signers = some p →
      ValidateScopeUpdateOwners env existing proposed signers =
        .error (.missingPartySignatures [p])) ∧
    (ValidateScopeUpdateOwners env existing proposed signers = .ok () ↔
      ∀ p ∈ existing.owners, p ∈ proposed.owners ∨ p.address ∈ signers) := by
  have hred : ValidateScopeUpdateOwners env existing proposed signers =
      (match firstChangedUnsigned existing.owners proposed.owners signers with
        | some p => .error (.missingPartySignatures [p])
        | none => .ok ()) := by
    simp only [ValidateScopeUpdateOwners, hspec, ValidateOwnerUpdate, hdec,
      hrole]
    rw [if_neg hnonempty, if_neg (by simp [hcov])]
  constructor
  · intro p hp
    rw [hred, hp]
  · rw [hred]
    cases hf : firstChangedUnsigned existing.owners proposed.owners signers with
    | some p =>
      unfold firstChangedUnsigned at hf
      have hmem := List.mem_filter.mp (List.mem_of_find?_eq_some hf)
      have hpred := List.find?_some hf
      constructor
      · intro h
        exact absurd h (by simp)
      · intro h
        exfalso
        rcases h p hmem.1 with hl | hr
        · exact absurd hl (by simpa using hmem.2)
        · exact absurd hr (by simpa using hpred)
    | none =>
      have hall := (firstChangedUnsigned_eq_none_iff _ _ _).mp hf
      exact ⟨fun _ => hall, fun _ => rfl⟩

/-- Witness for claim C5: replacing sole owner alice by bob with only
bob signing fails with the missing-signature error naming alice and her
OWNER role, and success is exactly the unchanged-or-signed condition on
the existing parties. -/
theorem claim5_witness :
    (∀ p, firstChangedUnsigned scopeA.owners scopeBobOwner.owners ["bob"] = some p →
      ValidateScopeUpdateOwners envOne scopeA scopeBobOwner ["bob"] =
        .error (.missingPartySignatures [p])) ∧
    (ValidateScopeUpdateOwners envOne scopeA scopeBobOwner ["bob"] = .ok () ↔
      ∀ p ∈ scopeA.owners, p ∈ scopeBobOwner.owners ∨ p.address ∈ ["bob"]) :=
  claim5_owner_update_signatures envOne scopeA scopeBobOwner ["bob"]
    [PartyType.owner] rfl rfl rfl (by decide) rfl

/-- Claim C6: with well-formed proposed parties, a non-empty proposed
owner list whose roles fail to cover some required role is rejected with
the missing-required-roles error carrying the sorted missing-role list,
while an empty proposed owner list is rejected with the
no-owners-specified error for every signer set. -/
theorem claim6_role_coverage (env : Env) (existing proposed : Scope)
    (signers : List String) (required : List PartyType)
    (hspec : env.specRequiredRoles proposed.specificationId = some required)
    (hdec : firstDecodeErr env proposed.owners = none)
    (hrole : firstRoleErr proposed.owners = none) :
    (proposed.owners ≠ [] →
      (∃ r ∈ required, r ∉ rolesOf proposed.owners) →
      ValidateScopeUpdateOwners env existing proposed signers =
        .error (.missingRequiredRoles
          (sortRoles (missingRoles required proposed.owners)))) ∧
    (proposed.owners = [] →
      ValidateScopeUpdateOwners env existing proposed signers =
        .error .noOwnersSpecified) ∧
    List.Sorted roleLe (sortRoles (missingRoles required proposed.owners)) := by
  refine ⟨?_, ?_, List.sorted_insertionSort roleLe _⟩
  · intro hnonempty hmiss
    simp only [ValidateScopeUpdateOwners, hspec, ValidateOwnerUpdate, hdec,
      hrole]
    rw [if_neg hnonempty,
      if_pos ((missingRoles_ne_nil_iff required proposed.owners).mpr hmiss)]
  · intro hempty
    simp only [ValidateScopeUpdateOwners, hspec, ValidateOwnerUpdate, hdec,
      hrole]
    rw [if_pos hempty]

/-- Witness for claim C6: demoting alice to CUSTODIAN leaves the
required OWNER role uncovered and is rejected with the
missing-required-roles error, and proposing an empty owner list is
rejected with the no-owners-specified error even with alice signing. -/
theorem claim6_witness :
    (scopeCustodian.owners ≠ [] →
      (∃ r ∈ [PartyType.owner], r ∉ rolesOf scopeCustodian.owners) →
      ValidateScopeUpdateOwners envOne scopeA scopeCustodian ["alice"] =
        .error (.missingRequiredRoles
          (sortRoles (missingRoles [PartyType.owner] scopeCustodian.owners)))) ∧
    (scopeNoOwners.owners = [] →
      ValidateScopeUpdateOwners envOne scopeA scopeNoOwners ["alice"] =
        .error .noOwnersSpecified) :=
  ⟨(claim6_role_coverage envOne scopeA scopeCustodian ["alice"]
      [PartyType.owner] rfl rfl rfl).1,
    (claim6_role_coverage envOne scopeA scopeNoOwners ["alice"]
      [PartyType.owner] rfl rfl rfl).2.1⟩

/-- Claim C8: both data-access validators check in a fixed order — an
empty address list fails first with the empty-list error for every
signer set; otherwise the first per-address failure (decode error, then
already-present for add or absent for delete) is reported; only when
every address passes is the owner-signer requirement evaluated, failing
with the missing-signature error carrying the unsigned owners and their
roles. -/
theorem claim8_data_access_order (env : Env) (addrs : List String)
    (existing : Scope) (signers : List String) :
    (ValidateScopeAddDataAccess env [] existing signers =
      .error .emptyDataAccessList) ∧
    (ValidateScopeDeleteDataAccess env [] existing signers =
      .error .emptyDataAccessList) ∧
    (∀ e, addrs ≠ [] →
      addrs.findSome? (addAddrErr env existing.dataAccess) = some e →
      ValidateScopeAddDataAccess env addrs existing signers = .error e) ∧
    (∀ e, addrs ≠ [] →
      addrs.findSome? (deleteAddrErr env existing.dataAccess) = some e →
      ValidateScopeDeleteDataAccess env addrs existing signers = .error e) ∧
    (addrs ≠ [] →
      addrs.findSome? (addAddrErr env existing.dataAccess) = none →
      ValidateScopeAddDataAccess env addrs existing signers =
        checkAllOwnersSigned existing.owners signers) ∧
    (addrs ≠ [] →
      addrs.findSome? (deleteAddrErr env existing.dataAccess) = none →
      ValidateScopeDeleteDataAccess env addrs existing signers =
        checkAllOwnersSigned existing.owners signers) ∧
    (missingOwnerParties existing.owners signers ≠ [] →
      checkAllOwnersSigned existing.owners signers =
        .error (.missingPartySignatures
          (missingOwnerParties existing.owners signers))) := by
  refine ⟨rfl, rfl, ?_, ?_, ?_, ?_, ?_⟩
  · intro e hnonempty hfind
    unfold ValidateScopeAddDataAccess
    rw [if_neg hnonempty, hfind]
  · intro e hnonempty hfind
    unfold ValidateScopeDeleteDataAccess
    rw [if_neg hnonempty, hfind]
  · intro hnonempty hfind
    unfold ValidateScopeAddDataAccess
    rw [if_neg hnonempty, hfind]
  · intro hnonempty hfind
    unfold ValidateScopeDeleteDataAccess
    rw [if_neg hnonempty, hfind]
  · intro hmiss
    unfold checkAllOwnersSigned
    rw [if_neg hmiss]

/-- Witness for claim C8: the undecodable address "badaddr" is reported
(for add and delete alike) before the signer check even with an empty
signer set; with a decodable fresh address, both validators reduce to
the owner-signer check, which fails for the unsigned owner alice. -/
theorem claim8_witness :
    (ValidateScopeAddDataAccess envOne [] scopeA ["alice"] =
      .error .emptyDataAccessList) ∧
    (ValidateScopeDeleteDataAccess envOne [] scopeA ["alice"] =
      .error .emptyDataAccessList) ∧
    (ValidateScopeAddDataAccess envOne ["badaddr"] scopeA [] =
      .error (.addressDecodeError "badaddr"
        "decoding bech32 failed: invalid index of 1")) ∧
    (ValidateScopeDeleteDataAccess envOne ["badaddr"] scopeA [] =
      .error (.addressDecodeError "badaddr"
        "decoding bech32 failed: invalid index of 1")) ∧
    (ValidateScopeAddDataAccess envOne ["bob"] scopeA [] =
      checkAllOwnersSigned scopeA.owners []) ∧
    (ValidateScopeDeleteDataAccess envOne ["carol"] scopeDataCarol [] =
      checkAllOwnersSigned scopeDataCarol.owners []) ∧
    (checkAllOwnersSigned scopeA.owners [] =
      .error (.missingPartySignatures (missingOwnerParties scopeA.owners []))) := by
  have hA := claim8_data_access_order envOne ["badaddr"] scopeA []
  have hB := claim8_data_access_order envOne ["bob"] scopeA []
  have hC := claim8_data_access_order envOne ["carol"] scopeDataCarol []
  exact ⟨claim8_data_access_order envOne [] scopeA ["alice"] |>.1,
    claim8_data_access_order envOne [] scopeA ["alice"] |>.2.1,
    hA.2.2.1 _ (by decide) rfl,
    hA.2.2.2.1 _ (by decide) rfl,
    hB.2.2.2.2.1 (by decide) rfl,
    hC.2.2.2.2.2.1 (by decide) rfl,
    hA.2.2.2.2.2.2 (by decide)⟩

/-- Claim C9: owner-consent monotonicity — a scope update accepted under
some signer set is accepted under every superset of that signer set. -/
theorem claim9_signer_monotonicity (env : Env) (existing proposed : Scope)
    (signers moreSigners : List String)
    (hsub : ∀ a ∈ signers, a ∈ moreSigners)
    (hok : ValidateScopeUpdate env existing proposed signers = .ok ()) :
    ValidateScopeUpdate env existing proposed moreSigners = .ok () := by
  unfold ValidateScopeUpdate at hok ⊢
  by_cases hE : existing.isEmpty = true
  · rw [if_pos hE] at hok ⊢
    exact hok
  · rw [if_neg hE] at hok ⊢
    by_cases hid : existing.scopeId ≠ proposed.scopeId
    · rw [if_pos hid] at hok
      exact absurd hok (by simp)
    · rw [if_neg hid] at hok ⊢
      cases hv : validateBasic env proposed with
      | error e => rw [hv] at hok; exact absurd hok (by simp)
      | ok u =>
        cases u
        rw [hv] at hok
        show (if proposed = existing then (Except.ok () : Except AuthError Unit)
          else match checkOwnersSigned existing.owners moreSigners with
            | .error e => .error e
            | .ok _ => ValidateValueOwnerTransfer env existing.valueOwner
                proposed.valueOwner moreSigners) = .ok ()
        by_cases hd : proposed = existing
        · rw [if_pos hd]
        · rw [if_neg hd] at hok ⊢
          cases hc : checkOwnersSigned existing.owners signers with
          | error e => rw [hc] at hok; exact absurd hok (by simp)
          | ok u2 =>
            cases u2
            rw [hc] at hok
            have hc2 : checkOwnersSigned existing.owners moreSigners = .ok () := by
              rw [checkOwnersSigned_ok_iff]
              intro p hp
              exact hsub _ ((checkOwnersSigned_ok_iff _ _).mp hc p hp)
            rw [hc2]
            exact validateValueOwnerTransfer_mono hsub hok

/-- Witness for claim C9: an update adding bob to data access accepted
with alice alone signing is still accepted when bob also signs. -/
theorem claim9_witness :
    (∀ a ∈ ["alice"], a ∈ ["alice", "bob"]) ∧
      ValidateScopeUpdate envOne scopeA { scopeA with dataAccess := ["bob"] }
        ["alice"] = .ok () ∧
      ValidateScopeUpdate envOne scopeA { scopeA with dataAccess := ["bob"] }
        ["alice", "bob"] = .ok () :=
  ⟨by decide, rfl,
    claim9_signer_monotonicity envOne scopeA { scopeA with dataAccess := ["bob"] }
      ["alice"] ["alice", "bob"] (by decide) rfl⟩

/-- Claim C10: when a plain existing value owner is being changed and
has not signed (all other checks passing), the update fails with exactly
the missing-owner-signature error for the value-owner address, whose
message is the string "missing signature from existing owner <address>;
required for update" — the very same error an unsigned scope owner would
produce, so the two conditions are textually indistinguishable. -/
theorem claim10_value_owner_error_message (env : Env)
    (existing proposed : Scope) (signers : List String)
    (hne : existing.isEmpty = false)
    (hid : existing.scopeId = proposed.scopeId)
    (hbasic : validateBasic env proposed = .ok ())
    (hdiff : proposed ≠ existing)
    (howners : firstUnsignedOwner existing.owners signers = none)
    (hvo : existing.valueOwner ≠ "")
    (hplain : env.isMarker existing.valueOwner = false)
    (hch : existing.valueOwner ≠ proposed.valueOwner)
    (hunsigned : signers.contains existing.valueOwner = false) :
    ValidateScopeUpdate env existing proposed signers =
      .error (.missingOwnerSignature existing.valueOwner) ∧
    (AuthError.missingOwnerSignature existing.valueOwner).message =
      "missing signature from existing owner " ++ existing.valueOwner ++
        "; required for update" := by
  refine ⟨?_, rfl⟩
  rw [validateScopeUpdate_update_path hne hid hbasic hdiff]
  have hc : checkOwnersSigned existing.owners signers = .ok () := by
    unfold checkOwnersSigned
    rw [howners]
  rw [hc]
  show ValidateValueOwnerTransfer env existing.valueOwner proposed.valueOwner
      signers = _
  unfold ValidateValueOwnerTransfer removalLeg
  rw [if_neg hch, if_neg hvo, if_neg (by simp [hplain]),
    if_neg (by rw [hunsigned]; exact Bool.false_ne_true)]

/-- Witness for claim C10: carol is the plain value owner of the sample
scope and not one of its owners; replacing her by dave with only owner
alice signing yields the missing-owner-signature error for carol, whose
message names carol exactly as a missing scope-owner signature would. -/
theorem claim10_witness :
    ("carol" ∉ scopeACarol.owners.map Party.address) ∧
      (ValidateScopeUpdate envOne scopeACarol scopeADave ["alice"] =
        .error (.missingOwnerSignature scopeACarol.valueOwner) ∧
      (AuthError.missingOwnerSignature scopeACarol.valueOwner).message =
        "missing signature from existing owner " ++ scopeACarol.valueOwner ++
          "; required for update") ∧
      (AuthError.missingOwnerSignature "carol").message =
        "missing signature from existing owner carol; required for update" :=
  ⟨by decide,
    claim10_value_owner_error_message envOne scopeACarol scopeADave ["alice"]
      rfl rfl rfl (by decide) rfl (by decide) rfl (by decide) rfl,
    rfl⟩
